import Mathlib

/-!
Verification of the lazy-loading AI capability registry and the safety-gated
pipelines of `backend/api/ai_services.py` and `backend/api/views.py`.

Part 1 - an interleaving model of `AIModelManager._load_model` / `get_model`
under concurrent callers (double-checked locking on `_loading_lock` with the
`_loaded_models` set as the published flag).

Each thread executing `get_model` on one fixed capability name runs:
  start    : unlocked check of `model_name in self._loaded_models`
  waitLock : blocked on `with self._loading_lock`
  crit     : re-check of `_loaded_models` while holding the lock
  loading  : executing the capability load procedure while holding the lock
  unlock   : successful load published (`_loaded_models.add`), releasing lock
  done     : `get_model` returned the published model
  failed   : the load raised; `models[name] = None` was stored, the name was
             NOT added to `_loaded_models`, the lock was released by the
             `with` block and the exception propagated to this caller
The parameter `loadOk` says whether the capability load procedure succeeds.
-/

inductive Pc where
  | start
  | waitLock
  | crit
  | loading
  | unlock
  | done
  | failed
deriving DecidableEq, Repr

/-- Shared state: `loaded` is `model_name in _loaded_models`, `loadCount`
counts executions of the load procedure, `lockHolder` is the thread holding
`_loading_lock`, `pcs` the program counter of each caller thread. -/
structure Config where
  loaded : Bool
  loadCount : Nat
  lockHolder : Option Nat
  pcs : List Pc
deriving DecidableEq, Repr

/-- One interleaving step of some thread `i` running `get_model` on the
fixed capability name. -/
inductive Step (loadOk : Bool) : Config → Config → Prop where
  | startHit (c : Config) (i : Nat) :
      c.pcs[i]? = some .start → c.loaded = true →
      Step loadOk c ⟨c.loaded, c.loadCount, c.lockHolder, c.pcs.set i .done⟩
  | startMiss (c : Config) (i : Nat) :
      c.pcs[i]? = some .start → c.loaded = false →
      Step loadOk c ⟨c.loaded, c.loadCount, c.lockHolder, c.pcs.set i .waitLock⟩
  | acquire (c : Config) (i : Nat) :
      c.pcs[i]? = some .waitLock → c.lockHolder = none →
      Step loadOk c ⟨c.loaded, c.loadCount, some i, c.pcs.set i .crit⟩
  | critHit (c : Config) (i : Nat) :
      c.pcs[i]? = some .crit → c.loaded = true →
      Step loadOk c ⟨c.loaded, c.loadCount, none, c.pcs.set i .done⟩
  | critMiss (c : Config) (i : Nat) :
      c.pcs[i]? = some .crit → c.loaded = false →
      Step loadOk c ⟨c.loaded, c.loadCount, c.lockHolder, c.pcs.set i .loading⟩
  | loadSucc (c : Config) (i : Nat) :
      c.pcs[i]? = some .loading → loadOk = true →
      Step loadOk c ⟨true, c.loadCount + 1, c.lockHolder, c.pcs.set i .unlock⟩
  | loadFail (c : Config) (i : Nat) :
      c.pcs[i]? = some .loading → loadOk = false →
      Step loadOk c ⟨c.loaded, c.loadCount + 1, none, c.pcs.set i .failed⟩
  | unlockStep (c : Config) (i : Nat) :
      c.pcs[i]? = some .unlock →
      Step loadOk c ⟨c.loaded, c.loadCount, none, c.pcs.set i .done⟩

/-- `n` concurrent callers of `get_model` on a capability that has never been
requested: nothing loaded, no load attempt yet, lock free. -/
def initConfig (n : Nat) : Config :=
  ⟨false, 0, none, List.replicate n .start⟩

/-- Every caller thread has returned from `get_model`, either normally
(`done`) or with the load exception propagating (`failed`). -/
def Terminated (c : Config) : Prop :=
  ∀ (i : Nat) (p : Pc), c.pcs[i]? = some p → p = .done ∨ p = .failed

/-- A thread holding the `_loading_lock` is in its critical section. -/
def holdsLock (p : Pc) : Prop :=
  p = .crit ∨ p = .loading ∨ p = .unlock

/-- Inductive invariant of the registry under a succeeding load procedure. -/
structure RegInv (n : Nat) (c : Config) : Prop where
  pcs_len : c.pcs.length = n
  count_eq : c.loadCount = if c.loaded then 1 else 0
  lock_some : ∀ (i : Nat) (p : Pc), c.pcs[i]? = some p → holdsLock p → c.lockHolder = some i
  loading_not_loaded : ∀ (i : Nat), c.pcs[i]? = some .loading → c.loaded = false
  unlock_loaded : ∀ (i : Nat), c.pcs[i]? = some .unlock → c.loaded = true
  done_loaded : ∀ (i : Nat), c.pcs[i]? = some .done → c.loaded = true
  no_failed : ∀ (i : Nat), c.pcs[i]? ≠ some .failed

/-!
Part 2 - sequential model of `AIModelManager`. `models` is the `self.models`
dict (an entry `(name, none)` is the Python `None` stored by a failed load),
`loadedModels` is the `self._loaded_models` set. A loader returning `none`
models a load procedure that raises. Under single-threaded use the lock is
a no-op, so it is elided.
-/

structure MState (M : Type) where
  models : List (String × Option M)
  loadedModels : List String
deriving DecidableEq, Repr

/-- Python `dict.get(name)`: `none` both when the key is absent and when the
stored value is Python `None` (the failed-load marker). -/
def pyGet {M : Type} (models : List (String × Option M)) (name : String) : Option M :=
  (models.lookup name).join

/-- `AIModelManager._load_model`, sequential: skip if already loaded; run the
loader; on success store the model and add the name to `_loaded_models`; on
failure store `None`, do NOT add the name, and re-raise. Result components:
state after the call, whether the load procedure executed, whether it raised. -/
def loadModel {M : Type} (loader : String → Option M) (s : MState M) (name : String) :
    MState M × Bool × Bool :=
  if name ∈ s.loadedModels then (s, false, false)
  else
    match loader name with
    | some m => (⟨(name, some m) :: s.models, name :: s.loadedModels⟩, true, false)
    | none => (⟨(name, none) :: s.models, s.loadedModels⟩, true, true)

/-- `AIModelManager.get_model`: load if not in `_loaded_models`, propagate a
load exception, otherwise return `self.models.get(name)`. -/
def getModel {M : Type} (loader : String → Option M) (s : MState M) (name : String) :
    MState M × Bool × Except Unit (Option M) :=
  if name ∈ s.loadedModels then (s, false, .ok (pyGet s.models name))
  else
    let r := loadModel loader s name
    if r.2.2 then (r.1, r.2.1, .error ()) else (r.1, r.2.1, .ok (pyGet r.1.models name))

/-!
Part 3 - the pipelines (`MultiModalAnalyzer`, `ConversationalAI`,
`ContentGenerator`). Each pipeline observes the model manager through the
outcome of `get_model` per capability: `.error e` when the load raises,
`.ok none` when no model is returned, `.ok (some f)` when a model is
returned; invoking a model may itself raise. Scores are exact rationals;
timestamps and processing times are elided.
-/

/-- A classification result entry, the `{label, score}` dict shape shared by
vision predictions, sentiment results and toxicity results. -/
structure LabelScore where
  label : String
  score : ℚ
deriving DecidableEq, Repr

/-- The outcome of `get_model(name)` plus the invoke procedure of the
capability, for each capability the pipelines use. -/
structure Caps (Img ZS : Type) where
  vision : Except String (Option (Img → Except String (List LabelScore)))
  sentiment : Except String (Option (String → Except String (List LabelScore)))
  zeroShot : Except String (Option (String → List String → Except String ZS))
  generator : Except String (Option (String → Nat → Except String String))
  summarizer : Except String (Option (String → Except String String))
  embeddings : Except String (Option (String → Except String (List ℚ)))
  toxicity : Except String (Option (String → Except String (List LabelScore)))

/-- The default sentiment dict: label NEUTRAL, score 0.5. -/
def neutralSentiment : LabelScore := ⟨"NEUTRAL", mkRat 1 2⟩

/-- The default toxicity dict: label NON_TOXIC, score 0.1. -/
def nonToxicDefault : LabelScore := ⟨"NON_TOXIC", mkRat 1 10⟩

/-- The conversational-turn toxicity gate of `ConversationalAI.chat`:
label equal to TOXIC and score above 0.7. -/
def conversationalGate (t : LabelScore) : Bool :=
  t.label == "TOXIC" && decide (mkRat 7 10 < t.score)

/-- The strict toxicity gate of `ContentGenerator.generate_safe_content`,
used on both the prompt and the generated output:
label equal to TOXIC and score above 0.5. -/
def strictGate (t : LabelScore) : Bool :=
  t.label == "TOXIC" && decide (mkRat 1 2 < t.score)

/-- The repeated source pattern `out = default; if result: out = result[0]`
applied to an already-resolved optional classifier model. -/
def resolveClassifierOpt (mOpt : Option (String → Except String (List LabelScore)))
    (fallback : LabelScore) (text : String) : Except String LabelScore :=
  match mOpt with
  | none => .ok fallback
  | some m =>
    match m text with
    | .error e => .error e
    | .ok [] => .ok fallback
    | .ok (r :: _) => .ok r

/-- The source pattern `out = default; model = get_model(name); if model:
result = model(text); if result: out = result[0]`. -/
def resolveClassifier (cap : Except String (Option (String → Except String (List LabelScore))))
    (fallback : LabelScore) (text : String) : Except String LabelScore :=
  match cap with
  | .error e => .error e
  | .ok mOpt => resolveClassifierOpt mOpt fallback text

/-- `f"Human: {message}\nAssistant:"` -/
def chatPrompt (message : String) : String :=
  "Human: " ++ message ++ "\nAssistant:"

/-- The templated echo fallback of `ConversationalAI.chat`. -/
def echoResponse (message : String) : String :=
  "I understand you said: " ++ message ++ ". How can I help you further?"

/-- The fixed refusal of `ConversationalAI.chat` for gated messages. -/
def refusalResponse : String :=
  "I can\x27t respond to that type of message. Let\x27s keep our conversation respectful."

/-- The body of the `try` block of `ConversationalAI.chat` up to (and
excluding) the history append: sentiment, toxicity, gate, response. -/
def chatCore {Img ZS : Type} (caps : Caps Img ZS) (message : String) :
    Except String (String × LabelScore × LabelScore) :=
  match resolveClassifier caps.sentiment neutralSentiment message with
  | .error e => .error e
  | .ok sentiment =>
    match resolveClassifier caps.toxicity nonToxicDefault message with
    | .error e => .error e
    | .ok toxicity =>
      if conversationalGate toxicity then
        .ok (refusalResponse, sentiment, toxicity)
      else
        match caps.generator with
        | .error e => .error e
        | .ok none => .ok (echoResponse message, sentiment, toxicity)
        | .ok (some g) =>
          match g (chatPrompt message) ((chatPrompt message).length + 100) with
          | .error e => .error e
          | .ok generated =>
            .ok ((generated.drop (chatPrompt message).length).trim, sentiment, toxicity)

/-- One exchange stored in `self.conversations[session_id]` (timestamp
elided). -/
structure Turn where
  message : String
  response : String
deriving DecidableEq, Repr

/-- `self.conversations`: the session-id-to-turn-history dict, as a partial
map (`none` = key absent). -/
abbrev ConvState := String → Option (List Turn)

/-- `if session_id not in self.conversations: self.conversations[session_id]
= []` followed by `self.conversations[session_id].append({...})`. -/
def addTurn (st : ConvState) (sid : String) (t : Turn) : ConvState :=
  match st sid with
  | none => fun x => if x == sid then some [t] else st x
  | some hist => fun x => if x == sid then some (hist ++ [t]) else st x

/-- The number of stored turns of a session. -/
def turnCount (st : ConvState) (sid : String) : Nat :=
  ((st sid).getD []).length

/-- The record returned by `ConversationalAI.chat` (processing time
elided). -/
structure ChatResult where
  response : String
  sentiment : LabelScore
  toxicityCheck : LabelScore
deriving DecidableEq, Repr

/-- The record built by the `except` handler of `ConversationalAI.chat`. -/
def errorChatResult (e : String) : ChatResult :=
  ⟨"I encountered an error processing your message: " ++ e,
   neutralSentiment, nonToxicDefault⟩

/-- `ConversationalAI.chat`: run the turn; on success append the exchange to
the in-memory history; on any internal exception return the error record and
leave the history unchanged. Total - it never raises. -/
def chat {Img ZS : Type} (caps : Caps Img ZS) (st : ConvState) (sid message : String) :
    ChatResult × ConvState :=
  match chatCore caps message with
  | .ok (resp, sent, tox) => (⟨resp, sent, tox⟩, addTurn st sid ⟨message, resp⟩)
  | .error e => (errorChatResult e, st)

/-- The transcript built by `ConversationalAI.summarize_conversation`:
`"Human: ...\nAssistant: ...\n"` lines over the last 10 exchanges. -/
def transcriptOf (hist : List Turn) : String :=
  ((hist.drop (hist.length - 10)).map
    (fun t => "Human: " ++ t.message ++ "\nAssistant: " ++ t.response ++ "\n")).foldl
    (fun a b => a ++ b) ""

/-- `ConversationalAI.summarize_conversation`: `None` for an unknown session
or fewer than 5 turns; resolve and invoke the summarizer only when the
transcript of the last 10 turns exceeds 1000 characters; an invocation
exception is caught and yields `None`. -/
def summarizeConversation {Img ZS : Type} (caps : Caps Img ZS) (st : ConvState)
    (sid : String) : Except String (Option String) :=
  match st sid with
  | none => .ok none
  | some hist =>
    if hist.length < 5 then .ok none
    else if 1000 < (transcriptOf hist).length then
      match caps.summarizer with
      | .error e => .error e
      | .ok none => .ok none
      | .ok (some sm) =>
        match sm (transcriptOf hist) with
        | .ok summaryText => .ok (some summaryText)
        | .error _ => .ok none
    else .ok none

/-- The `context_analysis` value of
`MultiModalAnalyzer.analyze_image_with_context`: sentiment over the context
text when that capability yields a model, zero-shot categories over the fixed
label set when that capability yields one too. -/
structure TextAnalysis (ZS : Type) where
  sentiment : List LabelScore
  categories : Option ZS

/-- The `if text_context:` block of `analyze_image_with_context`. -/
def contextAnalysisOf {Img ZS : Type} (caps : Caps Img ZS) (ctx : String) :
    Except String (Option (TextAnalysis ZS)) :=
  if ctx == "" then .ok none
  else
    match caps.sentiment with
    | .error e => .error e
    | .ok none => .ok none
    | .ok (some sm) =>
      match sm ctx with
      | .error e => .error e
      | .ok sentimentRes =>
        match caps.zeroShot with
        | .error e => .error e
        | .ok none => .ok (some ⟨sentimentRes, none⟩)
        | .ok (some zm) =>
          match zm ctx ["technology", "nature", "business", "personal", "educational"] with
          | .error e => .error e
          | .ok cats => .ok (some ⟨sentimentRes, some cats⟩)

/-- The result record of `analyze_image_with_context` (processing time
elided). -/
structure AnalysisResult (ZS : Type) where
  predictions : List LabelScore
  topLabels : List String
  textAnalysis : Option (TextAnalysis ZS)
  embeddings : Option (List ℚ)
  combinedDescription : String

/-- `MultiModalAnalyzer.analyze_image_with_context`: vision is mandatory
(`raise Exception("Vision model not available")` when `get_model` returns no
model); every exception propagates (the `except` block re-raises). -/
def analyzeImageWithContext {Img ZS : Type} (caps : Caps Img ZS) (img : Img)
    (ctx : String) : Except String (AnalysisResult ZS) :=
  match caps.vision with
  | .error e => .error e
  | .ok none => .error "Vision model not available"
  | .ok (some vm) =>
    match vm img with
    | .error e => .error e
    | .ok visionResults =>
      let topPredictions := if visionResults.isEmpty then [] else visionResults.take 3
      let imageLabels := topPredictions.map LabelScore.label
      match contextAnalysisOf caps ctx with
      | .error e => .error e
      | .ok ctxAnalysis =>
        let combined := "Image contains: " ++ String.intercalate ", " imageLabels
        let combinedFull := if ctx == "" then combined else combined ++ " Context: " ++ ctx
        match caps.embeddings with
        | .error e => .error e
        | .ok none => .ok ⟨topPredictions, imageLabels, ctxAnalysis, none, combinedFull⟩
        | .ok (some em) =>
          match em combinedFull with
          | .error e => .error e
          | .ok vec => .ok ⟨topPredictions, imageLabels, ctxAnalysis, some vec, combinedFull⟩

/-- The distinct result dicts of `ContentGenerator.generate_safe_content`:
prompt rejection (error "Prompt rejected due to potentially harmful
content" carrying the toxicity score), generator unavailable (error "Content
generation model not available"), output rejection (error "Generated content
failed safety check", reason "High toxicity score"), success, and the
`except` handler record (error "Content generation failed: <e>"). -/
inductive GenOutcome where
  | promptRejected (toxicityScore : ℚ)
  | unavailable
  | outputRejected
  | success (generatedText : String) (sentiment : LabelScore) (safetyScore : ℚ)
  | failed (msg : String)
deriving DecidableEq, Repr

/-- The `try` block of `generate_safe_content`. -/
def generateSafeCore {Img ZS : Type} (caps : Caps Img ZS) (prompt : String)
    (maxLength : Nat) : Except String GenOutcome :=
  match caps.toxicity with
  | .error e => .error e
  | .ok toxOpt =>
    match (match toxOpt with
           | none => Except.ok none
           | some tm =>
             match tm prompt with
             | .error e => .error e
             | .ok [] => .ok none
             | .ok (first :: _) =>
               if strictGate first then .ok (some first.score) else .ok none) with
    | .error e => .error e
    | .ok (some badScore) => .ok (.promptRejected badScore)
    | .ok none =>
      match caps.generator with
      | .error e => .error e
      | .ok none => .ok .unavailable
      | .ok (some g) =>
        match g prompt maxLength with
        | .error e => .error e
        | .ok generatedText =>
          match resolveClassifier caps.sentiment neutralSentiment generatedText with
          | .error e => .error e
          | .ok contentSentiment =>
            match resolveClassifierOpt toxOpt nonToxicDefault generatedText with
            | .error e => .error e
            | .ok contentToxicity =>
              if strictGate contentToxicity then .ok .outputRejected
              else .ok (.success generatedText contentSentiment (1 - contentToxicity.score))

/-- `ContentGenerator.generate_safe_content`: the `except` handler converts
any internal exception into the failure record. Total - it never raises. -/
def generateSafe {Img ZS : Type} (caps : Caps Img ZS) (prompt : String)
    (maxLength : Nat) : GenOutcome :=
  match generateSafeCore caps prompt maxLength with
  | .ok outcome => outcome
  | .error e => .failed ("Content generation failed: " ++ e)

/-!
Part 4 - the `chat_message` endpoint of `views.py`: per-session
`message_count` bookkeeping and the every-20th-turn summarization trigger.
-/

/-- A `ConversationSession` row: `message_count` (default 0) and
`context_summary` (default empty). -/
structure Session where
  messageCount : Nat
  contextSummary : String
deriving DecidableEq, Repr

/-- The `ConversationSession` table, as a partial map from session id. -/
abbrev DbState := String → Option Session

/-- Store a session row under its id (create or replace). -/
def dbUpdate (db : DbState) (sid : String) (s : Session) : DbState :=
  fun x => if x == sid then some s else db x

/-- The `chat_message` view: get-or-create the session, run
`conversational_ai.chat`, increment `message_count`, and when the new count
is a multiple of 20 attempt `summarize_conversation`, overwriting
`context_summary` only with a truthy summary. The second component reports
whether summarization was attempted; a summarizer load exception propagates
as `.error` (caught by the HTTP 500 handler, outside this model). -/
def chatMessage {Img ZS : Type} (caps : Caps Img ZS) (db : DbState)
    (conv : ConvState) (sid message : String) :
    Except String (DbState × ConvState × ChatResult) × Bool :=
  let session := (db sid).getD ⟨0, ""⟩
  let chatRes := chat caps conv sid message
  let newCount := session.messageCount + 1
  let attempted := newCount % 20 == 0
  let finalSession : Except String Session :=
    if attempted then
      match summarizeConversation caps chatRes.2 sid with
      | .error e => .error e
      | .ok (some s) => .ok ⟨newCount, if s == "" then session.contextSummary else s⟩
      | .ok none => .ok ⟨newCount, session.contextSummary⟩
    else .ok ⟨newCount, session.contextSummary⟩
  (match finalSession with
   | .error e => .error e
   | .ok s => .ok (dbUpdate db sid s, chatRes.2, chatRes.1), attempted)

/-!
Part 5 - concrete fixtures used by the witnesses.
-/

/-- A loader whose load procedure always raises. -/
def failLoader : String → Option Unit := fun _ => none

/-- A loader whose load procedure always succeeds. -/
def okLoader : String → Option Unit := fun _ => some ()

/-- A freshly initialized manager: no models, nothing loaded. -/
def emptyMState : MState Unit := ⟨[], []⟩

/-- Every capability resolves to no model. -/
def capsNone : Caps Unit Unit :=
  ⟨.ok none, .ok none, .ok none, .ok none, .ok none, .ok none, .ok none⟩

/-- The sentiment capability load raises. -/
def capsErrSentiment : Caps Unit Unit :=
  ⟨.ok none, .error "boom", .ok none, .ok none, .ok none, .ok none, .ok none⟩

/-- The mock vision model installed by the fallback load strategy. -/
def visMock : Unit → Except String (List LabelScore) := fun _ =>
  .ok [⟨"photograph", mkRat 85 100⟩, ⟨"digital_image", mkRat 1 10⟩, ⟨"visual_content", mkRat 1 20⟩]

/-- Only vision yields a model. -/
def capsVision : Caps Unit Unit :=
  ⟨.ok (some visMock), .ok none, .ok none, .ok none, .ok none, .ok none, .ok none⟩

/-- A toxicity model scoring every text as TOXIC at 0.6. -/
def toxSix : String → Except String (List LabelScore) := fun _ =>
  .ok [⟨"TOXIC", mkRat 6 10⟩]

/-- Only toxicity yields a model, the 0.6-scoring one. -/
def capsToxSix : Caps Unit Unit :=
  ⟨.ok none, .ok none, .ok none, .ok none, .ok none, .ok none, .ok (some toxSix)⟩

/-- A toxicity model scoring every text as TOXIC at 0.9. -/
def toxBad : String → Except String (List LabelScore) := fun _ =>
  .ok [⟨"TOXIC", mkRat 9 10⟩]

/-- Only toxicity yields a model, the 0.9-scoring one. -/
def capsToxBad : Caps Unit Unit :=
  ⟨.ok none, .ok none, .ok none, .ok none, .ok none, .ok none, .ok (some toxBad)⟩

/-- A generator model echoing its prompt plus a marker. -/
def genEcho : String → Nat → Except String String := fun p _ => .ok (p ++ " output")

/-- A toxicity model scoring every text as NON_TOXIC at 0.2. -/
def toxClean : String → Except String (List LabelScore) := fun _ =>
  .ok [⟨"NON_TOXIC", mkRat 2 10⟩]

/-- Only toxicity yields a model, the clean one. -/
def capsToxClean : Caps Unit Unit :=
  ⟨.ok none, .ok none, .ok none, .ok none, .ok none, .ok none, .ok (some toxClean)⟩

/-- Generator plus clean toxicity. -/
def capsGenClean : Caps Unit Unit :=
  ⟨.ok none, .ok none, .ok none, .ok (some genEcho), .ok none, .ok none, .ok (some toxClean)⟩

/-- A toxicity model with an empty result on the prompt "p" and a toxic
result on everything else (so the output check fires, not the prompt one). -/
def toxOutOnly : String → Except String (List LabelScore) := fun t =>
  if t == "p" then .ok [] else .ok [⟨"TOXIC", mkRat 8 10⟩]

/-- Generator plus the output-only toxic model. -/
def capsOutToxic : Caps Unit Unit :=
  ⟨.ok none, .ok none, .ok none, .ok (some genEcho), .ok none, .ok none, .ok (some toxOutOnly)⟩

/-- A 300-character message, to force a long transcript. -/
def longMessage : String := String.mk (List.replicate 300 'a')

/-- Five stored exchanges with the long message. -/
def longHistory : List Turn := List.replicate 5 ⟨longMessage, ""⟩

/-- An empty conversation store. -/
def emptyConv : ConvState := fun _ => none

/-- A conversation store holding the long session. -/
def stLong : ConvState := fun x => if x == "s1" then some longHistory else none

/-- A summarizer model returning a fixed summary. -/
def smEcho : String → Except String String := fun _ => .ok "SUMMARY"

/-- Only the summarizer yields a model. -/
def capsSummarizer : Caps Unit Unit :=
  ⟨.ok none, .ok none, .ok none, .ok none, .ok (some smEcho), .ok none, .ok none⟩

/-- An empty session store. -/
def emptyDb : DbState := fun _ => none

/-- A session store with 19 prior messages on "s1". -/
def db19 : DbState := fun x => if x == "s1" then some ⟨19, ""⟩ else none

-- ===== theorems =====

/-- Case analysis for reading an updated program-counter list. -/
theorem getElem?_set_cases {l : List Pc} {i j : Nat} {a b : Pc}
    (hj : (l.set i a)[j]? = some b) :
    (i = j ∧ b = a ∧ i < l.length) ∨ (i ≠ j ∧ l[j]? = some b) := by
  by_cases hij : i = j
  · subst hij
    rcases List.getElem?_eq_some.mp hj with ⟨hlt, _⟩
    rw [List.length_set] at hlt
    rw [List.getElem?_set_self hlt] at hj
    exact .inl ⟨rfl, (Option.some.inj hj).symm, hlt⟩
  · exact .inr ⟨hij, by rwa [List.getElem?_set_ne hij] at hj⟩

/-- The registry invariant holds in the initial configuration. -/
theorem regInv_init (n : Nat) : RegInv n (initConfig n) := by
  have hrep : ∀ (i : Nat) (p : Pc), (initConfig n).pcs[i]? = some p → p = Pc.start := by
    intro i p hp
    simp only [initConfig, List.getElem?_replicate] at hp
    split at hp
    · exact (Option.some.inj hp).symm
    · nomatch hp
  refine ⟨by simp [initConfig], rfl, ?_, ?_, ?_, ?_, ?_⟩
  · intro i p hp hl
    rcases hrep i p hp with rfl
    rcases hl with h1 | h1 | h1 <;> nomatch h1
  · intro i hp
    nomatch hrep i _ hp
  · intro i hp
    nomatch hrep i _ hp
  · intro i hp
    nomatch hrep i _ hp
  · intro i hp
    nomatch hrep i _ hp

/-- The registry invariant is preserved by every interleaving step when the
load procedure succeeds. -/
theorem regInv_step {n : Nat} {c c' : Config} (h : RegInv n c) (hs : Step true c c') :
    RegInv n c' := by
  obtain ⟨hlen, hcount, hlock, hload, hunl, hdone, hnof⟩ := h
  cases hs with
  | startHit i hi hl =>
    refine ⟨by simpa using hlen, hcount, ?_, ?_, ?_, ?_, ?_⟩
    · intro j p hj hp
      rcases getElem?_set_cases hj with ⟨rfl, rfl, -⟩ | ⟨-, hj'⟩
      · rcases hp with h1 | h1 | h1 <;> nomatch h1
      · exact hlock j p hj' hp
    · intro j hj
      rcases getElem?_set_cases hj with ⟨rfl, heq, -⟩ | ⟨-, hj'⟩
      · nomatch heq
      · exact hload j hj'
    · intro j hj
      rcases getElem?_set_cases hj with ⟨rfl, heq, -⟩ | ⟨-, hj'⟩
      · nomatch heq
      · exact hunl j hj'
    · intro j hj
      rcases getElem?_set_cases hj with ⟨rfl, heq, -⟩ | ⟨-, hj'⟩
      · exact hl
      · exact hdone j hj'
    · intro j hj
      rcases getElem?_set_cases hj with ⟨rfl, heq, -⟩ | ⟨-, hj'⟩
      · nomatch heq
      · exact hnof j hj'
  | startMiss i hi hl =>
    refine ⟨by simpa using hlen, hcount, ?_, ?_, ?_, ?_, ?_⟩
    · intro j p hj hp
      rcases getElem?_set_cases hj with ⟨rfl, rfl, -⟩ | ⟨-, hj'⟩
      · rcases hp with h1 | h1 | h1 <;> nomatch h1
      · exact hlock j p hj' hp
    · intro j hj
      rcases getElem?_set_cases hj with ⟨rfl, heq, -⟩ | ⟨-, hj'⟩
      · nomatch heq
      · exact hload j hj'
    · intro j hj
      rcases getElem?_set_cases hj with ⟨rfl, heq, -⟩ | ⟨-, hj'⟩
      · nomatch heq
      · exact hunl j hj'
    · intro j hj
      rcases getElem?_set_cases hj with ⟨rfl, heq, -⟩ | ⟨-, hj'⟩
      · nomatch heq
      · exact hdone j hj'
    · intro j hj
      rcases getElem?_set_cases hj with ⟨rfl, heq, -⟩ | ⟨-, hj'⟩
      · nomatch heq
      · exact hnof j hj'
  | acquire i hi hnone =>
    refine ⟨by simpa using hlen, hcount, ?_, ?_, ?_, ?_, ?_⟩
    · intro j p hj hp
      rcases getElem?_set_cases hj with ⟨rfl, rfl, -⟩ | ⟨hne, hj'⟩
      · rfl
      · have h1 := hlock j p hj' hp
        rw [hnone] at h1
        nomatch h1
    · intro j hj
      rcases getElem?_set_cases hj with ⟨rfl, heq, -⟩ | ⟨-, hj'⟩
      · nomatch heq
      · exact hload j hj'
    · intro j hj
      rcases getElem?_set_cases hj with ⟨rfl, heq, -⟩ | ⟨-, hj'⟩
      · nomatch heq
      · exact hunl j hj'
    · intro j hj
      rcases getElem?_set_cases hj with ⟨rfl, heq, -⟩ | ⟨-, hj'⟩
      · nomatch heq
      · exact hdone j hj'
    · intro j hj
      rcases getElem?_set_cases hj with ⟨rfl, heq, -⟩ | ⟨-, hj'⟩
      · nomatch heq
      · exact hnof j hj'
  | critHit i hi hl =>
    refine ⟨by simpa using hlen, hcount, ?_, ?_, ?_, ?_, ?_⟩
    · intro j p hj hp
      rcases getElem?_set_cases hj with ⟨rfl, rfl, -⟩ | ⟨hne, hj'⟩
      · rcases hp with h1 | h1 | h1 <;> nomatch h1
      · have h1 := hlock j p hj' hp
        have h2 := hlock i .crit hi (Or.inl rfl)
        exact absurd (Option.some.inj (h2.symm.trans h1)) hne
    · intro j hj
      rcases getElem?_set_cases hj with ⟨rfl, heq, -⟩ | ⟨-, hj'⟩
      · nomatch heq
      · exact hload j hj'
    · intro j hj
      rcases getElem?_set_cases hj with ⟨rfl, heq, -⟩ | ⟨-, hj'⟩
      · nomatch heq
      · exact hunl j hj'
    · intro j hj
      rcases getElem?_set_cases hj with ⟨rfl, heq, -⟩ | ⟨-, hj'⟩
      · exact hl
      · exact hdone j hj'
    · intro j hj
      rcases getElem?_set_cases hj with ⟨rfl, heq, -⟩ | ⟨-, hj'⟩
      · nomatch heq
      · exact hnof j hj'
  | critMiss i hi hl =>
    refine ⟨by simpa using hlen, hcount, ?_, ?_, ?_, ?_, ?_⟩
    · intro j p hj hp
      rcases getElem?_set_cases hj with ⟨rfl, rfl, -⟩ | ⟨-, hj'⟩
      · exact hlock i .crit hi (Or.inl rfl)
      · exact hlock j p hj' hp
    · intro j hj
      rcases getElem?_set_cases hj with ⟨rfl, heq, -⟩ | ⟨-, hj'⟩
      · exact hl
      · exact hload j hj'
    · intro j hj
      rcases getElem?_set_cases hj with ⟨rfl, heq, -⟩ | ⟨-, hj'⟩
      · nomatch heq
      · exact hunl j hj'
    · intro j hj
      rcases getElem?_set_cases hj with ⟨rfl, heq, -⟩ | ⟨-, hj'⟩
      · nomatch heq
      · exact hdone j hj'
    · intro j hj
      rcases getElem?_set_cases hj with ⟨rfl, heq, -⟩ | ⟨-, hj'⟩
      · nomatch heq
      · exact hnof j hj'
  | loadSucc i hi hok =>
    refine ⟨by simpa using hlen, ?_, ?_, ?_, ?_, ?_, ?_⟩
    · have hlf := hload i hi
      rw [hlf] at hcount
      simp only [if_neg Bool.false_ne_true] at hcount
      simp [hcount]
    · intro j p hj hp
      rcases getElem?_set_cases hj with ⟨rfl, rfl, -⟩ | ⟨-, hj'⟩
      · exact hlock i .loading hi (Or.inr (Or.inl rfl))
      · exact hlock j p hj' hp
    · intro j hj
      rcases getElem?_set_cases hj with ⟨rfl, heq, -⟩ | ⟨hne, hj'⟩
      · nomatch heq
      · have h1 := hlock j .loading hj' (Or.inr (Or.inl rfl))
        have h2 := hlock i .loading hi (Or.inr (Or.inl rfl))
        exact absurd (Option.some.inj (h2.symm.trans h1)) hne
    · intro j hj
      rfl
    · intro j hj
      rfl
    · intro j hj
      rcases getElem?_set_cases hj with ⟨rfl, heq, -⟩ | ⟨-, hj'⟩
      · nomatch heq
      · exact hnof j hj'
  | loadFail i hi hok =>
    nomatch hok
  | unlockStep i hi =>
    refine ⟨by simpa using hlen, hcount, ?_, ?_, ?_, ?_, ?_⟩
    · intro j p hj hp
      rcases getElem?_set_cases hj with ⟨rfl, rfl, -⟩ | ⟨hne, hj'⟩
      · rcases hp with h1 | h1 | h1 <;> nomatch h1
      · have h1 := hlock j p hj' hp
        have h2 := hlock i .unlock hi (Or.inr (Or.inr rfl))
        exact absurd (Option.some.inj (h2.symm.trans h1)) hne
    · intro j hj
      rcases getElem?_set_cases hj with ⟨rfl, heq, -⟩ | ⟨-, hj'⟩
      · nomatch heq
      · exact hload j hj'
    · intro j hj
      rcases getElem?_set_cases hj with ⟨rfl, heq, -⟩ | ⟨-, hj'⟩
      · nomatch heq
      · exact hunl j hj'
    · intro j hj
      rcases getElem?_set_cases hj with ⟨rfl, heq, -⟩ | ⟨-, hj'⟩
      · exact hunl i hi
      · exact hdone j hj'
    · intro j hj
      rcases getElem?_set_cases hj with ⟨rfl, heq, -⟩ | ⟨-, hj'⟩
      · nomatch heq
      · exact hnof j hj'

/-- The registry invariant holds in every reachable configuration. -/
theorem regInv_reach {n : Nat} {c : Config}
    (h : Relation.ReflTransGen (Step true) (initConfig n) c) : RegInv n c := by
  induction h with
  | refl => exact regInv_init n
  | tail _ hs ih => exact regInv_step ih hs

/-- C1 (amended): when the capability load procedure succeeds, issuing
N >= 1 concurrent `get_model` calls while the capability is unloaded causes
the load procedure to execute exactly once over every interleaving, and
every caller that returns observes the fully published loaded capability
(never a half-initialized one). The claim as frozen is refuted for failing
loads by `concurrent_get_load_twice`. -/
theorem concurrent_get_load_once_when_load_succeeds (n : Nat) (c : Config)
    (hn : 1 ≤ n) (hreach : Relation.ReflTransGen (Step true) (initConfig n) c) :
    (∀ (i : Nat), c.pcs[i]? = some .done → c.loaded = true) ∧
    (Terminated c → c.loadCount = 1 ∧ c.loaded = true) := by
  have hinv := regInv_reach hreach
  refine ⟨hinv.done_loaded, fun hterm => ?_⟩
  have h0 : 0 < c.pcs.length := by
    rw [hinv.pcs_len]
    exact hn
  have hp0 : c.pcs[0]? = some (c.pcs[0]) := List.getElem?_eq_getElem h0
  rcases hterm 0 _ hp0 with hdone | hfail
  · have hl : c.loaded = true := hinv.done_loaded 0 (by rw [hp0, hdone])
    refine ⟨?_, hl⟩
    rw [hinv.count_eq, hl]
    rfl
  · exact absurd (by rw [hp0, hfail]) (hinv.no_failed 0)

/-- Witness for `concurrent_get_load_once_when_load_succeeds`: one caller,
a succeeding load, run to completion. -/
theorem concurrent_get_load_once_witness :
    (⟨true, 1, none, [Pc.done]⟩ : Config).loadCount = 1 ∧
    (⟨true, 1, none, [Pc.done]⟩ : Config).loaded = true := by
  have hchain : Relation.ReflTransGen (Step true) (initConfig 1)
      ⟨true, 1, none, [Pc.done]⟩ := by
    refine .head (Step.startMiss _ 0 rfl rfl) ?_
    refine .head (Step.acquire _ 0 rfl rfl) ?_
    refine .head (Step.critMiss _ 0 rfl rfl) ?_
    refine .head (Step.loadSucc _ 0 rfl rfl) ?_
    exact .single (Step.unlockStep _ 0 rfl)
  have hterm : Terminated ⟨true, 1, none, [Pc.done]⟩ := by
    intro i p hp
    match i, hp with
    | 0, hp => exact Or.inl (Option.some.inj hp).symm
  exact (concurrent_get_load_once_when_load_succeeds 1 _ (Nat.le_refl 1) hchain).2 hterm

/-- C1 counterexample: with a failing load procedure, two concurrent
`get_model` callers can both run to completion having executed the load
procedure twice, refuting "exactly once ... regardless of N >= 1": a failed
load is not recorded in `_loaded_models`, so the second caller re-checks,
still sees the capability missing, and loads again. -/
theorem concurrent_get_load_twice :
    ¬ (∀ c : Config, Relation.ReflTransGen (Step false) (initConfig 2) c →
        Terminated c → c.loadCount = 1) := by
  intro hclaim
  have hchain : Relation.ReflTransGen (Step false) (initConfig 2)
      ⟨false, 2, none, [Pc.failed, Pc.failed]⟩ := by
    refine .head (Step.startMiss _ 0 rfl rfl) ?_
    refine .head (Step.startMiss _ 1 rfl rfl) ?_
    refine .head (Step.acquire _ 0 rfl rfl) ?_
    refine .head (Step.critMiss _ 0 rfl rfl) ?_
    refine .head (Step.loadFail _ 0 rfl rfl) ?_
    refine .head (Step.acquire _ 1 rfl rfl) ?_
    refine .head (Step.critMiss _ 1 rfl rfl) ?_
    exact .single (Step.loadFail _ 1 rfl rfl)
  have hterm : Terminated ⟨false, 2, none, [Pc.failed, Pc.failed]⟩ := by
    intro i p hp
    match i, hp with
    | 0, hp => exact Or.inr (Option.some.inj hp).symm
    | 1, hp => exact Or.inr (Option.some.inj hp).symm
  have h2 := hclaim _ hchain hterm
  nomatch h2

/-- C2 counterexample: on a fresh manager whose "vision" load procedure
raises, the first `get_model` attempts the load and raises, and the second
sequential `get_model` call attempts the load AGAIN and raises again -
rather than returning an unavailable result with the attempt count staying
at 1 - because a failed load never enters `_loaded_models`. -/
theorem failed_load_reattempted :
    ((getModel failLoader emptyMState "vision").2.1 = true) ∧
    ((getModel failLoader emptyMState "vision").2.2 = Except.error ()) ∧
    ((getModel failLoader (getModel failLoader emptyMState "vision").1 "vision").2.1 = true) ∧
    ((getModel failLoader (getModel failLoader emptyMState "vision").1 "vision").2.2 =
      Except.error ()) := by
  refine ⟨rfl, rfl, rfl, rfl⟩

/-- C2 (amended): once a load attempt for a name completes successfully, no
later sequential `get_model` call re-invokes the load procedure and each call
returns the cached model; but after a load attempt that raised, the next
`get_model` call re-invokes the load procedure and re-raises on repeated
failure (the load-attempt count grows with every call instead of staying
at 1). -/
theorem get_model_attempt_behaviour {M : Type} (loader : String → Option M)
    (s : MState M) (name : String) :
    (∀ m, loader name = some m → name ∉ s.loadedModels →
      (getModel loader s name).2.1 = true ∧
      (getModel loader s name).2.2 = .ok (some m) ∧
      (getModel loader (getModel loader s name).1 name).2.1 = false ∧
      (getModel loader (getModel loader s name).1 name).2.2 = .ok (some m))
    ∧ (name ∈ s.loadedModels →
      (getModel loader s name).2.1 = false ∧ (getModel loader s name).1 = s)
    ∧ (loader name = none → name ∉ s.loadedModels →
      (getModel loader s name).2.1 = true ∧
      (getModel loader s name).2.2 = .error () ∧
      (getModel loader (getModel loader s name).1 name).2.1 = true ∧
      (getModel loader (getModel loader s name).1 name).2.2 = .error ()) := by
  refine ⟨?_, ?_, ?_⟩
  · intro m hm hnot
    simp [getModel, loadModel, hm, hnot, pyGet, List.lookup]
  · intro hmem
    simp [getModel, hmem]
  · intro hm hnot
    simp [getModel, loadModel, hm, hnot, pyGet, List.lookup]

/-- Witness for `get_model_attempt_behaviour`: after one successful load of
"generator", the second `get_model` does not attempt a load. -/
theorem get_model_attempt_behaviour_witness :
    (getModel okLoader (getModel okLoader emptyMState "generator").1 "generator").2.1 = false :=
  ((get_model_attempt_behaviour okLoader emptyMState "generator").1 () rfl
    (by simp [emptyMState])).2.2.1

/-- Appending a turn to a session increments its stored turn count by one. -/
theorem turnCount_addTurn (st : ConvState) (sid : String) (t : Turn) :
    turnCount (addTurn st sid t) sid = turnCount st sid + 1 := by
  unfold turnCount addTurn
  cases h : st sid <;> simp [h]

/-- C3: for every image and context text, when `get_model` yields a vision
model whose invocation succeeds and yields no model for sentiment and
embeddings (and none for zero-shot), `analyze_image_with_context` succeeds,
returning the top-3 predictions and their labels, with
`text_analysis = None` and `embeddings = None`. -/
theorem analyze_degraded_success {Img ZS : Type} (caps : Caps Img ZS) (img : Img)
    (ctx : String) (vm : Img → Except String (List LabelScore)) (preds : List LabelScore)
    (hv : caps.vision = .ok (some vm)) (hvr : vm img = .ok preds)
    (hs : caps.sentiment = .ok none) (hz : caps.zeroShot = .ok none)
    (he : caps.embeddings = .ok none) :
    analyzeImageWithContext caps img ctx =
      .ok ⟨(if preds.isEmpty then [] else preds.take 3),
           (if preds.isEmpty then [] else preds.take 3).map LabelScore.label,
           none, none,
           (if ctx == "" then
              "Image contains: " ++ String.intercalate ", "
                ((if preds.isEmpty then [] else preds.take 3).map LabelScore.label)
            else
              "Image contains: " ++ String.intercalate ", "
                ((if preds.isEmpty then [] else preds.take 3).map LabelScore.label)
                ++ " Context: " ++ ctx)⟩ := by
  by_cases hc : ctx == ""
  · simp [analyzeImageWithContext, hv, hvr, contextAnalysisOf, hs, he, hc]
  · simp only [Bool.not_eq_true] at hc
    simp [analyzeImageWithContext, hv, hvr, contextAnalysisOf, hs, he, hc]

/-- Witness for `analyze_degraded_success`: the mock vision model with a
non-empty context and every other capability unavailable. -/
theorem analyze_degraded_success_witness :
    analyzeImageWithContext capsVision () "a cat" =
      .ok ⟨[⟨"photograph", mkRat 85 100⟩, ⟨"digital_image", mkRat 1 10⟩,
            ⟨"visual_content", mkRat 1 20⟩],
           ["photograph", "digital_image", "visual_content"], none, none,
           "Image contains: photograph, digital_image, visual_content Context: a cat"⟩ := by
  exact analyze_degraded_success capsVision () "a cat" visMock
    [⟨"photograph", mkRat 85 100⟩, ⟨"digital_image", mkRat 1 10⟩,
     ⟨"visual_content", mkRat 1 20⟩]
    rfl rfl rfl rfl rfl

/-- C4: for a chat turn that resolves sentiment and toxicity without an
exception and is not blocked by the conversational gate: with a generation
model the response is the generated text with the first `len(prompt)`
characters (the constructed prompt prefix) removed and whitespace stripped;
with no generation model the turn still succeeds with the templated echo
response; in both shapes the exchange is appended, and the turn count of the
session rises by one (1 on a fresh session). -/
theorem chat_turn_response_spec {Img ZS : Type} (caps : Caps Img ZS) (st : ConvState)
    (sid message : String) (sentiment toxicity : LabelScore)
    (hs : resolveClassifier caps.sentiment neutralSentiment message = .ok sentiment)
    (ht : resolveClassifier caps.toxicity nonToxicDefault message = .ok toxicity)
    (hgate : conversationalGate toxicity = false) :
    (∀ g generated, caps.generator = .ok (some g) →
      g (chatPrompt message) ((chatPrompt message).length + 100) = .ok generated →
      chat caps st sid message =
        (⟨(generated.drop (chatPrompt message).length).trim, sentiment, toxicity⟩,
         addTurn st sid ⟨message, (generated.drop (chatPrompt message).length).trim⟩))
    ∧ (caps.generator = .ok none →
      chat caps st sid message =
        (⟨echoResponse message, sentiment, toxicity⟩,
         addTurn st sid ⟨message, echoResponse message⟩) ∧
      turnCount (chat caps st sid message).2 sid = turnCount st sid + 1 ∧
      (st sid = none →
        (chat caps st sid message).2 sid = some [⟨message, echoResponse message⟩])) := by
  constructor
  · intro g generated hg hgen
    simp [chat, chatCore, hs, ht, hgate, hg, hgen]
  · intro hg
    have hchat : chat caps st sid message =
        (⟨echoResponse message, sentiment, toxicity⟩,
         addTurn st sid ⟨message, echoResponse message⟩) := by
      simp [chat, chatCore, hs, ht, hgate, hg]
    refine ⟨hchat, ?_, ?_⟩
    · rw [hchat]
      exact turnCount_addTurn st sid _
    · intro hnone
      rw [hchat]
      simp [addTurn, hnone]

/-- Witness for `chat_turn_response_spec`: the end-to-end scenario - fresh
session "s1", message "hello", every capability unavailable - yields the
templated echo and turn count 1. -/
theorem chat_turn_response_spec_witness :
    chat capsNone emptyConv "s1" "hello" =
      (⟨echoResponse "hello", neutralSentiment, nonToxicDefault⟩,
       addTurn emptyConv "s1" ⟨"hello", echoResponse "hello"⟩) ∧
    turnCount (chat capsNone emptyConv "s1" "hello").2 "s1" = 1 := by
  have h := ((chat_turn_response_spec capsNone emptyConv "s1" "hello"
    neutralSentiment nonToxicDefault rfl rfl rfl).2 rfl)
  exact ⟨h.1, h.2.1⟩

/-- C5: the conversational gate blocks exactly on label TOXIC with score
above 0.7; the strict gate used by the generation pipeline on both prompt and
output blocks exactly on label TOXIC with score above 0.5; consequently a
message scoring TOXIC 0.6 is not blocked by `ConversationalAI.chat` (the
echo path runs) but is prompt-rejected by `generate_safe_content`. -/
theorem toxicity_threshold_asymmetry :
    (∀ t : LabelScore, conversationalGate t = true ↔
      (t.label = "TOXIC" ∧ mkRat 7 10 < t.score))
    ∧ (∀ t : LabelScore, strictGate t = true ↔
      (t.label = "TOXIC" ∧ mkRat 1 2 < t.score))
    ∧ conversationalGate ⟨"TOXIC", mkRat 6 10⟩ = false
    ∧ strictGate ⟨"TOXIC", mkRat 6 10⟩ = true
    ∧ (chat capsToxSix emptyConv "s1" "hello").1.response = echoResponse "hello"
    ∧ generateSafe capsToxSix "hello" 200 = .promptRejected (mkRat 6 10) := by
  refine ⟨?_, ?_, by decide, by decide, rfl, rfl⟩
  · intro t
    simp [conversationalGate, Bool.and_eq_true, beq_iff_eq, decide_eq_true_eq]
  · intro t
    simp [strictGate, Bool.and_eq_true, beq_iff_eq, decide_eq_true_eq]

/-- Witness for `toxicity_threshold_asymmetry`: a TOXIC score of 0.8 does
trip the conversational gate. -/
theorem toxicity_threshold_asymmetry_witness :
    conversationalGate ⟨"TOXIC", mkRat 8 10⟩ = true :=
  (toxicity_threshold_asymmetry.1 ⟨"TOXIC", mkRat 8 10⟩).mpr ⟨rfl, by decide⟩

/-- C6: the `chat_message` view attempts summarization exactly when the
incremented `message_count` is a positive multiple of 20, and a produced
non-empty summary overwrites the stored `context_summary`. -/
theorem summarization_trigger_spec {Img ZS : Type} (caps : Caps Img ZS) (db : DbState)
    (conv : ConvState) (sid message : String) :
    ((chatMessage caps db conv sid message).2 = true ↔
      ∃ k, 1 ≤ k ∧ ((db sid).getD ⟨0, ""⟩).messageCount + 1 = 20 * k)
    ∧ (∀ s, (chatMessage caps db conv sid message).2 = true →
        summarizeConversation caps (chat caps conv sid message).2 sid = .ok (some s) →
        s ≠ "" →
        (chatMessage caps db conv sid message).1 =
          .ok (dbUpdate db sid ⟨((db sid).getD ⟨0, ""⟩).messageCount + 1, s⟩,
               (chat caps conv sid message).2, (chat caps conv sid message).1)) := by
  constructor
  · show ((((db sid).getD ⟨0, ""⟩).messageCount + 1) % 20 == 0) = true ↔ _
    rw [beq_iff_eq]
    constructor
    · intro hmod
      obtain ⟨c, hc⟩ := Nat.dvd_of_mod_eq_zero hmod
      refine ⟨c, ?_, hc⟩
      omega
    · rintro ⟨k, hk1, hk⟩
      rw [hk]
      simp [Nat.mul_mod_right]
  · intro s hatt hsum hne
    have hatt' : ((((db sid).getD ⟨0, ""⟩).messageCount + 1) % 20 == 0) = true := hatt
    have hne' : (s == "") = false := by
      simp [hne]
    simp only [chatMessage, hatt', if_true, hsum, hne']
    simp [hatt', hsum, hne']

/-- Witness for `summarization_trigger_spec`: a session with 19 prior
messages triggers a summarization attempt on the 20th. -/
theorem summarization_trigger_spec_witness :
    (chatMessage capsNone db19 emptyConv "s1" "hi").2 = true :=
  (summarization_trigger_spec capsNone db19 emptyConv "s1" "hi").1.mpr
    ⟨1, Nat.le_refl 1, rfl⟩

/-- C7: `summarize_conversation` returns `None` for an unknown session, for
fewer than 5 turns, and for a transcript of at most 1000 characters (in that
case for every summarizer capability state, so the summarizer is never
resolved or invoked); past those checks, with a summarizer model it returns
exactly the outcome of invoking it on the transcript of the last 10 turns -
its summary on success, `None` when the invocation raises (the exception is
swallowed) - and `None` when no summarizer model is available. -/
theorem summarize_conversation_spec {Img ZS : Type} (caps : Caps Img ZS)
    (st : ConvState) (sid : String) :
    (st sid = none → summarizeConversation caps st sid = .ok none)
    ∧ (∀ hist, st sid = some hist → hist.length < 5 →
        summarizeConversation caps st sid = .ok none)
    ∧ (∀ hist, st sid = some hist → 5 ≤ hist.length →
        (transcriptOf hist).length ≤ 1000 →
        summarizeConversation caps st sid = .ok none)
    ∧ (∀ hist, st sid = some hist → 5 ≤ hist.length →
        1000 < (transcriptOf hist).length → caps.summarizer = .ok none →
        summarizeConversation caps st sid = .ok none)
    ∧ (∀ hist sm, st sid = some hist → 5 ≤ hist.length →
        1000 < (transcriptOf hist).length → caps.summarizer = .ok (some sm) →
        summarizeConversation caps st sid = .ok (sm (transcriptOf hist)).toOption) := by
  refine ⟨?_, ?_, ?_, ?_, ?_⟩
  · intro h
    simp [summarizeConversation, h]
  · intro hist hsid h5
    simp [summarizeConversation, hsid, h5]
  · intro hist hsid h5 hle
    simp [summarizeConversation, hsid, Nat.not_lt.mpr h5, Nat.not_lt.mpr hle]
  · intro hist hsid h5 hgt hsm
    simp [summarizeConversation, hsid, Nat.not_lt.mpr h5, hgt, hsm]
  · intro hist sm hsid h5 hgt hsm
    simp only [summarizeConversation, hsid, if_neg (Nat.not_lt.mpr h5), if_pos hgt, hsm]
    cases hr : sm (transcriptOf hist) <;> simp [hr, Except.toOption]

set_option maxRecDepth 100000 in
/-- Witness for `summarize_conversation_spec`: five long turns (1600-char
transcript) with a working summarizer produce its summary. -/
theorem summarize_conversation_spec_witness :
    summarizeConversation capsSummarizer stLong "s1" = .ok (some "SUMMARY") := by
  exact (summarize_conversation_spec capsSummarizer stLong "s1").2.2.2.2
    longHistory smEcho rfl (by decide) (by decide) rfl

/-- C8: in `generate_safe_content` - (1) a prompt whose first toxicity entry
is TOXIC above 0.5 yields the prompt rejection carrying that score, for every
generator capability state (so generation is never resolved or invoked);
(2) a passing prompt with no generation model yields the distinct
capability-not-available error, with no fallback; (3) the output rejection
arises only after generation ran, when the output's first toxicity entry is
TOXIC above 0.5. -/
theorem generate_rejection_distinctness {Img ZS : Type} :
    (∀ (caps : Caps Img ZS) (prompt : String) (maxLength : Nat)
        (tm : String → Except String (List LabelScore)) (first : LabelScore)
        (rest : List LabelScore),
      caps.toxicity = .ok (some tm) → tm prompt = .ok (first :: rest) →
      first.label = "TOXIC" → mkRat 1 2 < first.score →
      generateSafe caps prompt maxLength = .promptRejected first.score)
    ∧ (∀ (caps : Caps Img ZS) (prompt : String) (maxLength : Nat)
        (tm : String → Except String (List LabelScore)) (first : LabelScore)
        (rest : List LabelScore),
      caps.toxicity = .ok (some tm) → tm prompt = .ok (first :: rest) →
      strictGate first = false → caps.generator = .ok none →
      generateSafe caps prompt maxLength = .unavailable)
    ∧ (∀ (caps : Caps Img ZS) (prompt : String) (maxLength : Nat)
        (tm : String → Except String (List LabelScore))
        (g : String → Nat → Except String String) (generated : String)
        (ot : LabelScore) (orest : List LabelScore),
      caps.toxicity = .ok (some tm) → tm prompt = .ok [] →
      caps.generator = .ok (some g) → g prompt maxLength = .ok generated →
      caps.sentiment = .ok none →
      tm generated = .ok (ot :: orest) →
      ot.label = "TOXIC" → mkRat 1 2 < ot.score →
      generateSafe caps prompt maxLength = .outputRejected) := by
  refine ⟨?_, ?_, ?_⟩
  · intro caps prompt maxLength tm first rest htox hp hlab hsc
    have hgate : strictGate first = true := by
      simp [strictGate, hlab, hsc]
    simp [generateSafe, generateSafeCore, htox, hp, hgate]
  · intro caps prompt maxLength tm first rest htox hp hgate hg
    simp [generateSafe, generateSafeCore, htox, hp, hgate, hg]
  · intro caps prompt maxLength tm g generated ot orest htox hp hg hgen hsent hot hlab hsc
    have hogate : strictGate ot = true := by
      simp [strictGate, hlab, hsc]
    simp [generateSafe, generateSafeCore, htox, hp, hg, hgen, hsent,
          resolveClassifier, resolveClassifierOpt, hot, hogate]

/-- Witness for `generate_rejection_distinctness`: the three outcome shapes
at concrete inputs. -/
theorem generate_rejection_distinctness_witness :
    generateSafe capsToxBad "x" 200 = .promptRejected (mkRat 9 10)
    ∧ generateSafe capsToxClean "x" 200 = .unavailable
    ∧ generateSafe capsOutToxic "p" 200 = .outputRejected := by
  refine ⟨?_, ?_, ?_⟩
  · exact (generate_rejection_distinctness.1) capsToxBad "x" 200 toxBad
      ⟨"TOXIC", mkRat 9 10⟩ [] rfl rfl rfl (by decide)
  · exact (generate_rejection_distinctness.2.1) capsToxClean "x" 200 toxClean
      ⟨"NON_TOXIC", mkRat 2 10⟩ [] rfl rfl (by decide) rfl
  · exact (generate_rejection_distinctness.2.2) capsOutToxic "p" 200 toxOutOnly
      genEcho "p output" ⟨"TOXIC", mkRat 8 10⟩ [] rfl rfl rfl rfl rfl rfl rfl (by decide)

/-- C9: an accepted generation result carries
`safety_score = 1 - toxicity score of the generated text` - the prompt
toxicity result (here an arbitrary passing `pt :: prest`) never enters the
score - and the sentiment annotation defaults to NEUTRAL 0.5 when the
sentiment capability yields no model. -/
theorem generate_safety_score_spec {Img ZS : Type} (caps : Caps Img ZS)
    (prompt : String) (maxLength : Nat)
    (tm : String → Except String (List LabelScore))
    (g : String → Nat → Except String String) (generated : String)
    (pt ot : LabelScore) (prest orest : List LabelScore)
    (htox : caps.toxicity = .ok (some tm))
    (hp : tm prompt = .ok (pt :: prest))
    (hpgate : strictGate pt = false)
    (hg : caps.generator = .ok (some g))
    (hgen : g prompt maxLength = .ok generated)
    (hsent : caps.sentiment = .ok none)
    (hot : tm generated = .ok (ot :: orest))
    (hogate : strictGate ot = false) :
    generateSafe caps prompt maxLength =
      .success generated neutralSentiment (1 - ot.score) := by
  simp [generateSafe, generateSafeCore, htox, hp, hpgate, hg, hgen, hsent,
        resolveClassifier, resolveClassifierOpt, hot, hogate]

/-- Witness for `generate_safety_score_spec`: a clean 0.2-toxicity output
gets safety score 1 - 0.2. -/
theorem generate_safety_score_spec_witness :
    generateSafe capsGenClean "p" 200 =
      .success "p output" neutralSentiment (1 - mkRat 2 10) :=
  generate_safety_score_spec capsGenClean "p" 200 toxClean genEcho "p output"
    ⟨"NON_TOXIC", mkRat 2 10⟩ ⟨"NON_TOXIC", mkRat 2 10⟩ [] []
    rfl rfl (by decide) rfl rfl rfl rfl (by decide)

/-- C10: `ConversationalAI.chat` is total (it always returns a result
record); when any step of the turn body raises with message `e`, the
returned record embeds `e` in the response text, carries the default
NEUTRAL 0.5 sentiment and NON_TOXIC 0.1 toxicity, and the in-memory
conversation history is left unchanged (no turn appended). -/
theorem chat_error_fallback_spec {Img ZS : Type} (caps : Caps Img ZS) (st : ConvState)
    (sid message e : String) (h : chatCore caps message = .error e) :
    chat caps st sid message =
      (⟨"I encountered an error processing your message: " ++ e,
        neutralSentiment, nonToxicDefault⟩, st) := by
  simp [chat, h, errorChatResult]

/-- Witness for `chat_error_fallback_spec`: a raising sentiment capability
load produces the error record and leaves the empty history unchanged. -/
theorem chat_error_fallback_spec_witness :
    chat capsErrSentiment emptyConv "s1" "hi" =
      (⟨"I encountered an error processing your message: boom",
        neutralSentiment, nonToxicDefault⟩, emptyConv) :=
  chat_error_fallback_spec capsErrSentiment emptyConv "s1" "hi" "boom" rfl
